import Mathlib

/-!
Shallow embedding of the data-glove visualizer (`src/main.py`, class
`DataGloveVisualizer`) for verification of its specification.

Conventions of the embedding:
* Python floats are modelled as rationals (`ℚ`); all arithmetic the claims
  touch is exact decimal arithmetic, so `ℚ` is adequate.
* The sentinel calibration bounds `float('inf')` / `float('-inf')` exist in
  the code only as "unset" markers (initial values, reset values, and the
  no-raw-frame fallback of the set-min/set-max handlers); they are modelled
  as `none : Option ℚ`, a non-sentinel stored bound as `some x`.
* Fallible parsing returns `Option`, mirroring the `return None` /
  caught-exception paths of the Python code.
* Python string primitives used by the code (`str.strip`, `str.split` with a
  one-character separator, truthiness of strings) are implemented
  character-by-character below with the same semantics.
-/

/-- Characters removed by Python `str.strip()` (ASCII whitespace subset;
the source only ever deals with ASCII serial data). -/
def isPySpace (c : Char) : Bool :=
  c = ' ' || c = '\t' || c = '\n' || c = '\r' || c = '\x0b' || c = '\x0c'

/-- Python `s.strip()`: drop leading and trailing whitespace. -/
def pyStrip (s : String) : String :=
  String.mk (((s.toList.dropWhile isPySpace).reverse.dropWhile isPySpace).reverse)

/-- Accumulator-passing worker for `pySplit`. -/
def pySplitAux (sep : Char) (acc : List Char) : List Char → List (List Char)
  | [] => [acc.reverse]
  | c :: cs =>
    if c = sep then acc.reverse :: pySplitAux sep [] cs
    else pySplitAux sep (c :: acc) cs

/-- Python `s.split(sep)` for a one-character separator: splits at every
occurrence of `sep`; `"".split(sep) = [""]`, and empty segments are kept. -/
def pySplit (sep : Char) (s : String) : List String :=
  (pySplitAux sep [] s.toList).map String.mk

/-- Value of a decimal digit character, `none` on a non-digit. -/
def digitVal (c : Char) : Option ℕ :=
  if c.isDigit then some (c.toNat - 48) else none

/-- Parse a nonempty all-digit string into a natural number. -/
def parseDigits (cs : List Char) : Option ℕ :=
  if cs.isEmpty then none
  else
    cs.foldl
      (fun acc c =>
        match acc, digitVal c with
        | some n, some d => some (10 * n + d)
        | _, _ => none)
      (some 0)

/-- The decimal-literal subset of Python `float(s)`: an optional sign
followed by digits, optionally with a fractional part (`115.412`, `-3.5`,
`100`).  Exotic inputs Python would also accept (exponents, `inf`, `nan`,
underscores, surrounding whitespace) are outside the wire format described
by the spec; the parsing theorems below are stated for an arbitrary
conversion function, and this concrete one is used for witnesses. -/
def pyFloat (s : String) : Option ℚ :=
  let signedBody : Bool × List Char :=
    match s.toList with
    | '-' :: r => (true, r)
    | '+' :: r => (false, r)
    | r => (false, r)
  match pySplitAux '.' [] signedBody.2 with
  | [ip] =>
    (parseDigits ip).map (fun n => if signedBody.1 then -(n : ℚ) else (n : ℚ))
  | [ip, fp] =>
    match parseDigits ip, parseDigits fp with
    | some n, some f =>
      let q : ℚ := mkRat ((n : ℤ) * 10 ^ fp.length + (f : ℤ)) (10 ^ fp.length)
      some (if signedBody.1 then -q else q)
    | _, _ => none
  | _ => none

/-- `part.split('=')[1]` fed to float conversion: takes the segment after the
first `=`; a missing `=` is the IndexError path and a failed conversion the
ValueError path of `parse_serial_data`, both yielding `none`. -/
def pyFieldValue (toF : String → Option ℚ) (p : String) : Option ℚ :=
  match pySplit '=' p with
  | _ :: v :: _ => toF v
  | _ => none

/-- The per-segment loop of `parse_serial_data`: convert every segment's
value, failing the whole line on the first bad segment. -/
def parseFields (toF : String → Option ℚ) : List String → Option (List ℚ)
  | [] => some []
  | p :: ps =>
    match pyFieldValue toF p with
    | none => none
    | some v =>
      match parseFields toF ps with
      | none => none
      | some vs => some (v :: vs)

/-- The state of `DataGloveVisualizer` relevant to the angle/calibration
pipeline.  `finger_0` … `finger_4` are the entries of the `angle_data` dict
(`finger_0` is the thumb with 2 joints, `finger_1` the index finger, … as in
the source comments); `current_raw_angles` is `none` before the attribute is
first assigned (the code guards it with `hasattr`). -/
structure GloveState where
  finger_0 : List ℚ
  finger_1 : List ℚ
  finger_2 : List ℚ
  finger_3 : List ℚ
  finger_4 : List ℚ
  pressure_data : List ℕ
  current_raw_angles : Option (List ℚ)
  calibration_min : List (Option ℚ)
  calibration_max : List (Option ℚ)
  is_calibrated : Bool
  angle_serial_open : Bool
deriving DecidableEq

/-- The `__init__` values of the embedded fields (lines 45-70 of the
source). -/
def initState : GloveState :=
  { finger_0 := [180, 180]
    finger_1 := [30, 40, 50]
    finger_2 := [35, 45, 55]
    finger_3 := [40, 50, 60]
    finger_4 := [45, 55, 65]
    pressure_data := [0, 0, 0, 0, 0]
    current_raw_angles := none
    calibration_min := List.replicate 14 none
    calibration_max := List.replicate 14 none
    is_calibrated := false
    angle_serial_open := false }

/-- `map_angle(self, value, idx)`: pass-through when uncalibrated or when
either bound of the channel is still the unset sentinel; `45` when the two
bounds coincide; otherwise the linear rescale into 0-90 clamped by
`max(0, min(90, .))`.  Out-of-range `idx` never occurs in the source (all
these lists have length 14); `getD` with the sentinel default keeps the
function total without changing any in-range behaviour. -/
def map_angle (st : GloveState) (value : ℚ) (idx : ℕ) : ℚ :=
  if !st.is_calibrated then value
  else
    match st.calibration_min.getD idx none, st.calibration_max.getD idx none with
    | none, _ => value
    | some _, none => value
    | some min_val, some max_val =>
      if max_val = min_val then 45
      else max 0 (min 90 ((value - min_val) / (max_val - min_val) * 90))

/-- The comprehension `[self.map_angle(angle, i) for i, angle in
enumerate(angles)]`, with the running index made explicit. -/
def mapAnglesFrom (st : GloveState) : ℕ → List ℚ → List ℚ
  | _, [] => []
  | i, v :: vs => map_angle st v i :: mapAnglesFrom st (i + 1) vs

/-- The state update performed by `parse_serial_data` after a line has fully
validated: store the raw angles, then distribute the mapped angles to the
fingers by the fixed slices `[0:3]`, `[3:6]`, `[6:9]`, `[9:12]`, `[12:14]`.
(`map_angle` reads only the calibration fields, which this update leaves
alone, so computing `mapped` before or after storing the raw angles is
indistinguishable.) -/
def applyAngles (st : GloveState) (angles : List ℚ) : GloveState :=
  let mapped := mapAnglesFrom st 0 angles
  { st with
    current_raw_angles := some angles
    finger_1 := mapped.take 3
    finger_2 := (mapped.drop 3).take 3
    finger_3 := (mapped.drop 6).take 3
    finger_4 := (mapped.drop 9).take 3
    finger_0 := (mapped.drop 12).take 2 }

/-- `parse_serial_data(self, data)` (lines 751-786): strip, split on `,`,
require exactly 14 segments, convert every `<label>=<float>` value, and only
then update the state.  `none` is the `return None` path; no state component
is touched on that path, exactly as in the source where all assignments come
after the full validation loop.  The float conversion is a parameter so that
the theorems cover Python `float` exactly on the claims' premises. -/
def parse_serial_data (toF : String → Option ℚ) (st : GloveState)
    (data : String) : Option GloveState :=
  let parts := pySplit ',' (pyStrip data)
  if parts.length = 14 then
    match parseFields toF parts with
    | some angles => some (applyAngles st angles)
    | none => none
  else none

/-- Items placed on `self.data_queue`: `True` after a successful angle
parse, or a list of pressure ints (only the shadowed first
`serial_read_thread` could produce the latter). -/
inductive QItem where
  | angleFlag
  | pressure (l : List ℕ)
deriving DecidableEq

/-- One poll iteration of the *effective* `serial_read_thread` (the second
definition, lines 788-803; in a Python class body the later `def` of the
same name replaces the earlier one, so this is the body the running thread
executes).  `raw` is `none` when no bytes are waiting, otherwise the decoded
`readline()` result.  On a successful parse the updated state is kept and
`True` is enqueued; on a failed parse nothing changes. -/
def serial_read_thread_iter (st : GloveState) (raw : Option String) :
    GloveState × List QItem :=
  match raw with
  | none => (st, [])
  | some s =>
    let data := pyStrip s
    if data = "" then (st, [])
    else
      match parse_serial_data pyFloat st data with
      | some st' => (st', [QItem.angleFlag])
      | none => (st, [])

/-- A whole run of the effective read thread over a sequence of poll
results, collecting the enqueued items in order. -/
def serial_read_thread_run (st : GloveState) :
    List (Option String) → GloveState × List QItem
  | [] => (st, [])
  | r :: rs =>
    let step1 := serial_read_thread_iter st r
    let rest := serial_read_thread_run step1.1 rs
    (rest.1, step1.2 ++ rest.2)

/-- The queue-draining loop of `update_visualization` (lines 809-814):
a 5-element list replaces `pressure_data`, the `True` flag is ignored. -/
def update_visualization_drain (pressure_data : List ℕ) :
    List QItem → List ℕ
  | [] => pressure_data
  | QItem.angleFlag :: rest => update_visualization_drain pressure_data rest
  | QItem.pressure l :: rest =>
    if l.length = 5 then update_visualization_drain l rest
    else update_visualization_drain pressure_data rest

/-- User-visible events of the calibration lifecycle plus arrival of one
angle line. -/
inductive GloveEv where
  | openSerial
  | closeSerial
  | set_min_values
  | set_max_values
  | reset_calibration
  | angleLine (s : String)
deriving DecidableEq

/-- One event of the calibration/ingest lifecycle.
`set_min_values` (701-708): no-op unless the angle serial is open; stores
the latest raw frame as `calibration_min`, falling back to the all-sentinel
list when no frame was ever parsed (`hasattr` guard).
`set_max_values` (710-718): same snapshot into `calibration_max`, and sets
`is_calibrated := true` unconditionally on that path.
`reset_calibration` (720-726): both bounds back to sentinels, flag cleared.
`angleLine` runs one read-thread iteration on the line. -/
def glove_step (st : GloveState) : GloveEv → GloveState
  | GloveEv.openSerial => { st with angle_serial_open := true }
  | GloveEv.closeSerial => { st with angle_serial_open := false }
  | GloveEv.set_min_values =>
    if st.angle_serial_open then
      { st with
        calibration_min :=
          match st.current_raw_angles with
          | some a => a.map some
          | none => List.replicate 14 none }
    else st
  | GloveEv.set_max_values =>
    if st.angle_serial_open then
      { st with
        calibration_max :=
          match st.current_raw_angles with
          | some a => a.map some
          | none => List.replicate 14 none
        is_calibrated := true }
    else st
  | GloveEv.reset_calibration =>
    { st with
      calibration_min := List.replicate 14 none
      calibration_max := List.replicate 14 none
      is_calibrated := false }
  | GloveEv.angleLine s => (serial_read_thread_iter st (some s)).1

/-- Execution of an event trace from the freshly initialized state. -/
def execTrace (evs : List GloveEv) : GloveState :=
  evs.foldl glove_step initState

/-- States the program can actually be in: the initial state and anything an
event takes a reachable state to. -/
inductive GloveReachable : GloveState → Prop where
  | init : GloveReachable initState
  | step : ∀ st e, GloveReachable st → GloveReachable (glove_step st e)

/-!
The pressure branch of the *first* (shadowed) `serial_read_thread`
definition (lines 394-418).  `readline()` returns bytes up to and including
the first newline (or whatever arrived before the timeout), these are
decoded and `strip()`ped, the stripped text is appended to a growing
`buffer`, and a `while '\x0a' in buffer` loop splits off newline-terminated
lines; a line starting with `ch0:` is matched against the regular expression
`ch` digit `:` digits, and exactly 5 matches make one pressure frame.
-/

/-- Python `buffer.split('\x0a', 1)` when a newline is present: the text
before the first newline and the text after it. -/
def splitOnceNL : List Char → Option (List Char × List Char)
  | [] => none
  | c :: cs =>
    if c = '\n' then some ([], cs)
    else (splitOnceNL cs).map (fun p => (c :: p.1, p.2))

/-- One attempted match of the regex `ch` digit `:` digits (the capture
being the final digit run, matched greedily) at the head of the character
list; on success returns the captured integer and the characters after the
match. -/
def chMatch : List Char → Option (ℕ × List Char)
  | 'c' :: 'h' :: d :: ':' :: rest =>
    if d.isDigit then
      let ds := rest.takeWhile Char.isDigit
      if ds.isEmpty then none
      else some (ds.foldl (fun n c => 10 * n + (c.toNat - 48)) 0,
                 rest.dropWhile Char.isDigit)
    else none
  | _ => none

/-- `re.findall(r'ch\x5cd:(\x5cd+)', line)` with the captures converted by
`int`: scan left to right, collecting non-overlapping matches and resuming
after each match.  Each recursive call consumes at least one character, so
an initial fuel of the line length is never exhausted. -/
def findallCh : ℕ → List Char → List ℕ
  | 0, _ => []
  | _, [] => []
  | fuel + 1, c :: cs =>
    match chMatch (c :: cs) with
    | some (v, rest) => v :: findallCh fuel rest
    | none => findallCh fuel cs

/-- Python `line.startswith('ch0:')`, character by character. -/
def startsWithCh0 : List Char → Bool
  | 'c' :: 'h' :: '0' :: ':' :: _ => true
  | _ => false

/-- The `while '\x0a' in buffer` extraction loop: repeatedly split off the
text before the first newline, strip it, and turn it into a pressure frame
when it starts with `ch0:` and yields exactly 5 regex matches.  Returns the
frames in order together with the leftover buffer.  Every iteration removes
at least the newline, so fuel equal to the buffer length is never
exhausted. -/
def extractLines : ℕ → String → List (List ℕ) × String
  | 0, buf => ([], buf)
  | fuel + 1, buf =>
    match splitOnceNL buf.toList with
    | none => ([], buf)
    | some (lineChars, restChars) =>
      let line := (pyStrip (String.mk lineChars)).toList
      let frames :=
        if startsWithCh0 line then
          let values := findallCh line.length line
          if values.length = 5 then [values] else []
        else []
      let rest := extractLines fuel (String.mk restChars)
      (frames ++ rest.1, rest.2)

/-- One pressure-serial poll of the first `serial_read_thread` definition:
`data = readline().decode('utf-8').strip()`, then `decoded = data.strip()`;
a nonempty `decoded` is appended to the buffer and the extraction loop
runs.  Returns the emitted frames and the new buffer. -/
def pressure_chunk_step (buffer : String) (chunk : String) :
    List (List ℕ) × String :=
  let data := pyStrip chunk
  let decoded := pyStrip data
  if decoded = "" then ([], buffer)
  else
    let grown := buffer ++ decoded
    extractLines grown.length grown

/-- Processing a whole sequence of `readline()` results through the
pressure branch, starting from the initial empty buffer state. -/
def pressureRun (buffer : String) : List String → List (List ℕ) × String
  | [] => ([], buffer)
  | c :: cs =>
    let step1 := pressure_chunk_step buffer c
    let rest := pressureRun step1.2 cs
    (step1.1 ++ rest.1, rest.2)

/-!
Connection handling (`toggle_connection`, `stop_serial_thread`, lines
429-474) and the attribute lookup that decides the fate of the connect
branch.
-/

/-- The attribute name the connect branch looks up on `self`. -/
def startMethodName : String := "start_serial_thread"

/-- The methods defined in the class body of `DataGloveVisualizer`
(`def` statements directly inside the class, in source order;
`serial_read_thread` appears twice in the source and once here, since the
second `def` rebinds the same attribute name).  Python resolves
`self.start_serial_thread` against this set and raises `AttributeError`
when the name is absent. -/
def classMethodNames : List String :=
  ["__init__", "create_hand_model", "init_3d_view", "update_view_limits",
   "_init_mouse_control", "update_hand_model", "serial_read_thread",
   "stop_serial_thread", "toggle_connection", "update",
   "update_data_display", "init_data_tab", "get_available_ports",
   "refresh_ports", "init_control_panel", "update_frequency",
   "release_update_lock", "set_min_values", "set_max_values",
   "reset_calibration", "map_angle", "parse_serial_data",
   "update_visualization", "run"]

/-- The connection-related state of the application: the thread flag, a
marker for whether a read thread was ever started, the two port handles
(modelled as open/closed booleans) and the connect-button caption. -/
structure AppState where
  thread_running : Bool
  serial_thread_started : Bool
  angle_open : Bool
  pressure_open : Bool
  connect_btn_text : String
deriving DecidableEq

/-- `__init__`: `thread_running = False`, no thread, no ports, button
reading "连接" (connect). -/
def initAppState : AppState :=
  { thread_running := false
    serial_thread_started := false
    angle_open := false
    pressure_open := false
    connect_btn_text := "连接" }

/-- The `except` handler of the connect branch (lines 468-474): close
whichever ports are open and reset the button caption. -/
def connect_except_handler (st : AppState) : AppState :=
  { st with angle_open := false, pressure_open := false,
            connect_btn_text := "连接" }

/-- `stop_serial_thread` (lines 429-433): clears the running flag and joins
the thread. -/
def stop_serial_thread (st : AppState) : AppState :=
  { st with thread_running := false }

/-- `toggle_connection` (lines 435-474).  Inputs: whether an angle and a
pressure port are selected in the UI, and whether each `serial.Serial` open
call would succeed.  The disconnect branch stops the thread, closes the
ports and resets the button.  The connect branch opens the selected ports
(jumping to the handler on an open failure), sets the button to "断开"
(disconnect) and then calls `self.start_serial_thread()` — a method that
exists nowhere in the class, so when the name lookup fails the
`AttributeError` lands in the same handler.  The branch guarded by the
lookup records what a successful start would have done; it is reachable
only if the class defined the method. -/
def toggle_connection (sel_angle sel_pressure open_angle_ok open_pressure_ok : Bool)
    (st : AppState) : AppState :=
  if st.angle_open || st.pressure_open then
    { st with thread_running := false, angle_open := false,
              pressure_open := false, connect_btn_text := "连接" }
  else if !sel_angle && !sel_pressure then st
  else if sel_angle && !open_angle_ok then connect_except_handler st
  else
    let st1 := if sel_angle then { st with angle_open := true } else st
    if sel_pressure && !open_pressure_ok then connect_except_handler st1
    else
      let st2 := if sel_pressure then { st1 with pressure_open := true } else st1
      let st3 := { st2 with connect_btn_text := "断开" }
      if classMethodNames.contains startMethodName then
        { st3 with serial_thread_started := true, thread_running := true }
      else connect_except_handler st3

/-- The operations that touch the connection state.  No other method of the
class assigns `thread_running`, starts a thread, or opens a port. -/
inductive AppEv where
  | toggle (sel_angle sel_pressure open_angle_ok open_pressure_ok : Bool)
  | stopThread
deriving DecidableEq

/-- Transition function over connection events. -/
def app_step (st : AppState) : AppEv → AppState
  | AppEv.toggle a b c d => toggle_connection a b c d st
  | AppEv.stopThread => stop_serial_thread st

/-- Connection states the application can actually be in. -/
inductive AppReachable : AppState → Prop where
  | init : AppReachable initAppState
  | step : ∀ st e, AppReachable st → AppReachable (app_step st e)

/-!
The refresh-rate plumbing (`update_frequency`, lines 683-695, and the two
refresh loops).
-/

/-- `update_frequency` after a successful `int()` conversion of the FPS
combo-box value: a positive fps stores `int(1000 / fps)` (for
`1 ≤ fps ≤ 1000` Python's truncation of the float quotient equals this
natural-number division); otherwise the stored interval is unchanged. -/
def update_frequency (fps : ℤ) (update_interval : ℕ) : ℕ :=
  if 0 < fps then 1000 / fps.toNat else update_interval

/-- The rescheduling decision at the end of `update_visualization` (lines
823-826), the refresh loop that `run()` actually starts: it re-arms itself
with `self.root.after(16, ...)` — a constant 16 ms — and only while
`self.thread_running` is true.  The stored `update_interval` is accepted
here only to exhibit that the loop never consults it. -/
def update_visualization_delay (thread_running : Bool) (update_interval : ℕ) :
    Option ℕ :=
  if thread_running then some 16 else none

/-- The rescheduling of the other refresh loop, `update` (line 500), which
does use the stored interval — but `run()` (lines 828-836) never schedules
a first call of `update`, so this loop is dead code. -/
def update_loop_delay (update_interval : ℕ) : Option ℕ :=
  some update_interval

/-!
Concrete inputs and states used by the witnesses.
-/

/-- A well-formed 14-field angle line. -/
def c1goodLine : String :=
  "C1=115.412,C2=34.382,C3=30.0,C4=40.0,C5=50.0,C6=60.0,C7=70.0,C8=80.0,C9=90.0,C10=100.0,C11=110.0,C12=120.0,C13=130.0,C14=140.0"

/-- A malformed angle line: only 13 fields. -/
def c1badLine : String :=
  "C1=10.0,C2=20.0,C3=30.0,C4=40.0,C5=50.0,C6=60.0,C7=70.0,C8=80.0,C9=90.0,C10=100.0,C11=110.0,C12=120.0,C13=130.0"

/-- The end-to-end scenario line `C1=10.0, …, C14=140.0`. -/
def c7line : String :=
  "C1=10.0,C2=20.0,C3=30.0,C4=40.0,C5=50.0,C6=60.0,C7=70.0,C8=80.0,C9=90.0,C10=100.0,C11=110.0,C12=120.0,C13=130.0,C14=140.0"

/-- The values carried by `c7line`. -/
def c7angles : List ℚ :=
  [10, 20, 30, 40, 50, 60, 70, 80, 90, 100, 110, 120, 130, 140]

/-- An angle line reading 0 on all 14 channels. -/
def allZeroLine : String :=
  "C1=0,C2=0,C3=0,C4=0,C5=0,C6=0,C7=0,C8=0,C9=0,C10=0,C11=0,C12=0,C13=0,C14=0"

/-- An angle line reading 100 on all 14 channels. -/
def allHundredLine : String :=
  "C1=100,C2=100,C3=100,C4=100,C5=100,C6=100,C7=100,C8=100,C9=100,C10=100,C11=100,C12=100,C13=100,C14=100"

/-- An angle line reading 5 on all 14 channels. -/
def allFiveLine : String :=
  "C1=5,C2=5,C3=5,C4=5,C5=5,C6=5,C7=5,C8=5,C9=5,C10=5,C11=5,C12=5,C13=5,C14=5"

/-- The calibration scenario of the spec: snapshot a minimum of 0 and a
maximum of 100 on every channel. -/
def stDemo : GloveState :=
  execTrace [GloveEv.openSerial, GloveEv.angleLine allZeroLine,
             GloveEv.set_min_values, GloveEv.angleLine allHundredLine,
             GloveEv.set_max_values]

/-- A reversed calibration: the minimum snapshot (100) is above the maximum
snapshot (0) on every channel — reachable whenever the user flexes less for
the "maximum" pose than for the "minimum" pose. -/
def stRev : GloveState :=
  execTrace [GloveEv.openSerial, GloveEv.angleLine allHundredLine,
             GloveEv.set_min_values, GloveEv.angleLine allZeroLine,
             GloveEv.set_max_values]

/-- A degenerate calibration: both snapshots taken from the same frame, so
`min = max = 5` on every channel. -/
def stDegenerate : GloveState :=
  execTrace [GloveEv.openSerial, GloveEv.angleLine allFiveLine,
             GloveEv.set_min_values, GloveEv.set_max_values]

/-- First `readline()` result of the spec's chunked-pressure scenario. -/
def c2chunk1 : String := "ch0:10ch1:20ch2"

/-- Second `readline()` result: the rest of the record plus the newline. -/
def c2chunk2 : String := ":30ch3:40ch4:50\n"

/-- The two `readline()` results of the spec's chunked-pressure scenario. -/
def c2chunks : List String := [c2chunk1, c2chunk2]

/-- The buffer contents after both chunks are stripped and appended: the
whole record with its newline removed. -/
def c2joined : String := "ch0:10ch1:20ch2:30ch3:40ch4:50"

/-- The same record with its newline intact, as the extraction loop was
written to receive it. -/
def c2joinedNL : String := "ch0:10ch1:20ch2:30ch3:40ch4:50\n"

/-- The initial pressure buffer (`buffer = ""` at thread start). -/
def emptyBuffer : String := ""

/-!
Helper lemmas.
-/

/-- `getD` into an all-sentinel list is the sentinel at every index. -/
lemma getD_replicate_none (n i : ℕ) :
    (List.replicate n (none : Option ℚ)).getD i none = none := by
  induction n generalizing i with
  | zero => simp [List.getD]
  | succ n ih =>
    cases i with
    | zero => simp [List.replicate]
    | succ i => simpa [List.replicate] using ih i

/-- `parseFields` preserves the segment count. -/
lemma parseFields_length (toF : String → Option ℚ) :
    ∀ (ps : List String) (vs : List ℚ),
      parseFields toF ps = some vs → vs.length = ps.length := by
  intro ps
  induction ps with
  | nil =>
    intro vs h
    cases h
    rfl
  | cons p ps ih =>
    intro vs h
    simp only [parseFields] at h
    cases hv : pyFieldValue toF p with
    | none => rw [hv] at h; cases h
    | some v =>
      rw [hv] at h
      cases hf : parseFields toF ps with
      | none => rw [hf] at h; cases h
      | some vs' =>
        rw [hf] at h
        cases h
        simp [ih vs' hf]

/-- `parseFields` converts segment by segment, in order. -/
lemma parseFields_get? (toF : String → Option ℚ) :
    ∀ (ps : List String) (vs : List ℚ),
      parseFields toF ps = some vs →
      ∀ i, vs.get? i = (ps.get? i).bind (pyFieldValue toF) := by
  intro ps
  induction ps with
  | nil =>
    intro vs h i
    cases h
    simp
  | cons p ps ih =>
    intro vs h i
    simp only [parseFields] at h
    cases hv : pyFieldValue toF p with
    | none => rw [hv] at h; cases h
    | some v =>
      rw [hv] at h
      cases hf : parseFields toF ps with
      | none => rw [hf] at h; cases h
      | some vs' =>
        rw [hf] at h
        cases h
        cases i with
        | zero => simp [hv]
        | succ i => simpa using ih vs' hf i

/-- When every segment's value converts, the whole loop succeeds. -/
lemma parseFields_total (toF : String → Option ℚ) :
    ∀ ps : List String,
      (∀ p ∈ ps, (pyFieldValue toF p).isSome = true) →
      ∃ vs, parseFields toF ps = some vs := by
  intro ps
  induction ps with
  | nil => exact fun _ => ⟨[], rfl⟩
  | cons p ps ih =>
    intro hall
    have hp := hall p (List.mem_cons_self p ps)
    rcases Option.isSome_iff_exists.mp hp with ⟨v, hv⟩
    rcases ih (fun q hq => hall q (List.mem_cons_of_mem p hq)) with ⟨vs, hvs⟩
    exact ⟨v :: vs, by simp [parseFields, hv, hvs]⟩

/-- One failing segment fails the whole loop. -/
lemma parseFields_none_of_mem (toF : String → Option ℚ) :
    ∀ (ps : List String) (p : String),
      p ∈ ps → pyFieldValue toF p = none → parseFields toF ps = none := by
  intro ps
  induction ps with
  | nil => intro p hp; cases hp
  | cons q ps ih =>
    intro p hp hnone
    rcases List.mem_cons.mp hp with rfl | hp'
    · simp [parseFields, hnone]
    · cases hv : pyFieldValue toF q with
      | none => simp [parseFields, hv]
      | some v => simp [parseFields, hv, ih p hp' hnone]

/-- A successful parse touches only the angle fields: calibration data, the
serial handle and the pressure vector are exactly as before. -/
lemma parse_serial_data_preserves (toF : String → Option ℚ)
    (st st' : GloveState) (d : String)
    (h : parse_serial_data toF st d = some st') :
    st'.calibration_min = st.calibration_min ∧
    st'.calibration_max = st.calibration_max ∧
    st'.is_calibrated = st.is_calibrated ∧
    st'.angle_serial_open = st.angle_serial_open ∧
    st'.pressure_data = st.pressure_data := by
  simp only [parse_serial_data] at h
  split at h
  · cases hf : parseFields toF (pySplit ',' (pyStrip d)) with
    | none => rw [hf] at h; cases h
    | some angles =>
      rw [hf] at h
      cases h
      exact ⟨rfl, rfl, rfl, rfl, rfl⟩
  · cases h

/-- One read-thread iteration on an angle line never changes the
calibration fields, the serial handle or the pressure vector. -/
lemma angleLine_preserves_calibration (st : GloveState) (s : String) :
    (glove_step st (GloveEv.angleLine s)).calibration_min = st.calibration_min ∧
    (glove_step st (GloveEv.angleLine s)).calibration_max = st.calibration_max ∧
    (glove_step st (GloveEv.angleLine s)).is_calibrated = st.is_calibrated ∧
    (glove_step st (GloveEv.angleLine s)).angle_serial_open = st.angle_serial_open ∧
    (glove_step st (GloveEv.angleLine s)).pressure_data = st.pressure_data := by
  by_cases hd : pyStrip s = ""
  · simp [glove_step, serial_read_thread_iter, hd]
  · cases hp : parse_serial_data pyFloat st (pyStrip s) with
    | none => simp [glove_step, serial_read_thread_iter, hd, hp]
    | some st' =>
      have hpre := parse_serial_data_preserves pyFloat st st' _ hp
      simp [glove_step, serial_read_thread_iter, hd, hp, hpre.1, hpre.2.1,
            hpre.2.2.1, hpre.2.2.2.1, hpre.2.2.2.2]

/-- In a reachable state the calibration flag can only be down while every
stored maximum is still the sentinel: `set_max_values` is the only writer of
`calibration_max` and it raises the flag on the same path. -/
lemma reachable_flag_false_max_none (st : GloveState) (h : GloveReachable st) :
    st.is_calibrated = false → ∀ i, st.calibration_max.getD i none = none := by
  induction h with
  | init => exact fun _ i => getD_replicate_none 14 i
  | step st e hst ih =>
    cases e with
    | openSerial => exact fun hf i => ih hf i
    | closeSerial => exact fun hf i => ih hf i
    | set_min_values =>
      intro hf i
      by_cases ho : st.angle_serial_open
      · have hf' : st.is_calibrated = false := by
          simpa [glove_step, ho] using hf
        have hmax : (glove_step st GloveEv.set_min_values).calibration_max =
            st.calibration_max := by simp [glove_step, ho]
        rw [hmax]
        exact ih hf' i
      · have hid : glove_step st GloveEv.set_min_values = st := by
          simp [glove_step, ho]
        rw [hid] at hf ⊢
        exact ih hf i
    | set_max_values =>
      intro hf i
      by_cases ho : st.angle_serial_open
      · have : (glove_step st GloveEv.set_max_values).is_calibrated = true := by
          simp [glove_step, ho]
        rw [this] at hf
        cases hf
      · have hid : glove_step st GloveEv.set_max_values = st := by
          simp [glove_step, ho]
        rw [hid] at hf ⊢
        exact ih hf i
    | reset_calibration =>
      intro _ i
      have : (glove_step st GloveEv.reset_calibration).calibration_max =
          List.replicate 14 none := rfl
      rw [this]
      exact getD_replicate_none 14 i
    | angleLine s =>
      intro hf i
      have hpre := angleLine_preserves_calibration st s
      rw [hpre.2.2.1] at hf
      rw [hpre.2.1]
      exact ih hf i

/-- A reachable state with a non-sentinel stored maximum is calibrated. -/
lemma calibrated_of_max_some (st : GloveState) (h : GloveReachable st)
    (i : ℕ) (mx : ℚ) (hmx : st.calibration_max.getD i none = some mx) :
    st.is_calibrated = true := by
  cases hb : st.is_calibrated with
  | true => rfl
  | false =>
    rw [reachable_flag_false_max_none st h hb i] at hmx
    cases hmx

/-- Unfolding `map_angle` on the calibrated, non-degenerate path. -/
lemma map_angle_eq_clamp (st : GloveState) (v : ℚ) (i : ℕ) (mn mx : ℚ)
    (hc : st.is_calibrated = true)
    (hmn : st.calibration_min.getD i none = some mn)
    (hmx : st.calibration_max.getD i none = some mx)
    (hne : ¬ mx = mn) :
    map_angle st v i = max 0 (min 90 ((v - mn) / (mx - mn) * 90)) := by
  unfold map_angle
  rw [hc, hmn, hmx]
  simp [hne]

/-- With the flag down, the enumerate-and-map comprehension is the
identity. -/
lemma mapAnglesFrom_of_uncalibrated (st : GloveState)
    (hc : st.is_calibrated = false) :
    ∀ (i : ℕ) (l : List ℚ), mapAnglesFrom st i l = l := by
  intro i l
  induction l generalizing i with
  | nil => rfl
  | cons v vs ih => simp [mapAnglesFrom, map_angle, hc, ih]

/-- Folding events onto a reachable state stays reachable. -/
lemma reachable_foldl (st : GloveState) (h : GloveReachable st) :
    ∀ evs : List GloveEv, GloveReachable (evs.foldl glove_step st) := by
  intro evs
  induction evs generalizing st with
  | nil => exact h
  | cons e es ih => exact ih _ (GloveReachable.step st e h)

/-- Every trace execution is reachable. -/
lemma reachable_execTrace (evs : List GloveEv) :
    GloveReachable (execTrace evs) :=
  reachable_foldl initState GloveReachable.init evs

/-- The scenario states are reachable. -/
lemma stDemo_reachable : GloveReachable stDemo :=
  reachable_execTrace _

/-- Draining nothing but angle flags leaves the pressure vector alone. -/
lemma drain_replicate_angleFlag (p : List ℕ) (n : ℕ) :
    update_visualization_drain p (List.replicate n QItem.angleFlag) = p := by
  induction n with
  | zero => rfl
  | succ n ih => simpa [List.replicate, update_visualization_drain] using ih

/-- One iteration of the effective read thread emits at most the `True`
flag and never touches the pressure vector. -/
lemma iter_items_pressure (st : GloveState) (r : Option String) :
    ((serial_read_thread_iter st r).2 = [] ∨
      (serial_read_thread_iter st r).2 = [QItem.angleFlag]) ∧
    (serial_read_thread_iter st r).1.pressure_data = st.pressure_data := by
  rcases r with _ | s
  · exact ⟨Or.inl rfl, rfl⟩
  · by_cases hd : pyStrip s = ""
    · simp [serial_read_thread_iter, hd]
    · cases hp : parse_serial_data pyFloat st (pyStrip s) with
      | none => simp [serial_read_thread_iter, hd, hp]
      | some st' =>
        have := (parse_serial_data_preserves pyFloat st st' _ hp).2.2.2.2
        simp [serial_read_thread_iter, hd, hp, this]

/-- A whole run of the effective read thread emits only `True` flags and
never touches the pressure vector. -/
lemma run_items_pressure (polls : List (Option String)) :
    ∀ st : GloveState,
      (∃ n, (serial_read_thread_run st polls).2 =
        List.replicate n QItem.angleFlag) ∧
      (serial_read_thread_run st polls).1.pressure_data = st.pressure_data := by
  induction polls with
  | nil => exact fun st => ⟨⟨0, rfl⟩, rfl⟩
  | cons r rs ih =>
    intro st
    obtain ⟨⟨n, hn⟩, hp⟩ := ih (serial_read_thread_iter st r).1
    obtain ⟨hitems, hpress⟩ := iter_items_pressure st r
    constructor
    · rcases hitems with h0 | h1
      · exact ⟨n, by simp [serial_read_thread_run, h0, hn]⟩
      · exact ⟨n + 1,
          by simp [serial_read_thread_run, h1, hn, List.replicate_succ]⟩
    · simpa [serial_read_thread_run, hpress] using hp

/-!
Claim theorems.
-/

/-- C1: `parse_serial_data` is all-or-nothing.  A line whose strip-and-split
yields exactly 14 comma-separated segments, each with a convertible
`<label>=<float>` value, parses to exactly 14 values, in field order, stored
as the new `current_raw_angles`.  A line with any other segment count, or
with any segment whose value fails conversion, is rejected whole (`None`),
and in the read thread a rejected line leaves the state — in particular
`angle_data` and `current_raw_angles` — untouched; a partial update is
impossible. -/
theorem parse_serial_data_all_or_nothing
    (toF : String → Option ℚ) (st : GloveState) (data : String) :
    ((pySplit ',' (pyStrip data)).length = 14 →
      (∀ p ∈ pySplit ',' (pyStrip data), (pyFieldValue toF p).isSome = true) →
      ∃ vs, parse_serial_data toF st data = some (applyAngles st vs) ∧
        vs.length = 14 ∧
        (applyAngles st vs).current_raw_angles = some vs ∧
        ∀ i, vs.get? i = ((pySplit ',' (pyStrip data)).get? i).bind (pyFieldValue toF)) ∧
    (((pySplit ',' (pyStrip data)).length ≠ 14 ∨
        ∃ p ∈ pySplit ',' (pyStrip data), pyFieldValue toF p = none) →
      parse_serial_data toF st data = none) ∧
    (∀ s : String, parse_serial_data pyFloat st (pyStrip s) = none →
      (serial_read_thread_iter st (some s)).1 = st ∧
      glove_step st (GloveEv.angleLine s) = st) := by
  refine ⟨?_, ?_, ?_⟩
  · intro h14 hall
    rcases parseFields_total toF _ hall with ⟨vs, hvs⟩
    refine ⟨vs, ?_, ?_, rfl, parseFields_get? toF _ vs hvs⟩
    · simp [parse_serial_data, h14, hvs]
    · rw [parseFields_length toF _ vs hvs, h14]
  · intro hbad
    rcases hbad with h14 | ⟨p, hp, hnone⟩
    · simp [parse_serial_data, h14]
    · have hn := parseFields_none_of_mem toF _ p hp hnone
      simp only [parse_serial_data]
      split
      · rw [hn]
      · rfl
  · intro s hs
    have hiter : (serial_read_thread_iter st (some s)).1 = st := by
      by_cases hd : pyStrip s = ""
      · simp [serial_read_thread_iter, hd]
      · simp [serial_read_thread_iter, hd, hs]
    exact ⟨hiter, hiter⟩

/-- Witness for C1: a 14-field line is accepted, a 13-field line is rejected
and leaves the initial state untouched. -/
theorem parse_serial_data_all_or_nothing_witness :
    parse_serial_data pyFloat initState c1goodLine ≠ none ∧
    parse_serial_data pyFloat initState c1badLine = none ∧
    glove_step initState (GloveEv.angleLine c1badLine) = initState := by
  have hgood := (parse_serial_data_all_or_nothing pyFloat initState c1goodLine).1
    (by decide) (by decide)
  have hbad := (parse_serial_data_all_or_nothing pyFloat initState c1badLine).2.1
    (Or.inl (by decide))
  have hkeep := (parse_serial_data_all_or_nothing pyFloat initState c1badLine).2.2
    c1badLine (by decide)
  refine ⟨?_, hbad, hkeep.2⟩
  rcases hgood with ⟨vs, hvs, -, -, -⟩
  rw [hvs]
  exact Option.some_ne_none _

/-- C7: a successfully parsed line distributes the mapped angles to the
fingers by the fixed index ranges — index finger `0:3`, middle `3:6`, ring
`6:9`, pinky `9:12`, thumb `12:14`; with calibration inactive the index
finger receives the first three raw values verbatim. -/
theorem parse_serial_data_partitions_fingers
    (toF : String → Option ℚ) (st st' : GloveState) (line : String)
    (h : parse_serial_data toF st line = some st') :
    ∃ angles, parseFields toF (pySplit ',' (pyStrip line)) = some angles ∧
      st'.finger_1 = (mapAnglesFrom st 0 angles).take 3 ∧
      st'.finger_2 = ((mapAnglesFrom st 0 angles).drop 3).take 3 ∧
      st'.finger_3 = ((mapAnglesFrom st 0 angles).drop 6).take 3 ∧
      st'.finger_4 = ((mapAnglesFrom st 0 angles).drop 9).take 3 ∧
      st'.finger_0 = ((mapAnglesFrom st 0 angles).drop 12).take 2 ∧
      (st.is_calibrated = false → st'.finger_1 = angles.take 3) := by
  simp only [parse_serial_data] at h
  split at h
  · cases hf : parseFields toF (pySplit ',' (pyStrip line)) with
    | none => rw [hf] at h; cases h
    | some angles =>
      rw [hf] at h
      cases h
      refine ⟨angles, rfl, rfl, rfl, rfl, rfl, rfl, ?_⟩
      intro hcal
      show (mapAnglesFrom st 0 angles).take 3 = angles.take 3
      rw [mapAnglesFrom_of_uncalibrated st hcal]
  · cases h

/-- Witness for C7: the end-to-end scenario line gives the index finger
`[10, 20, 30]` under inactive calibration. -/
theorem parse_serial_data_partitions_fingers_witness :
    ∃ st', parse_serial_data pyFloat initState c7line = some st' ∧
      st'.finger_1 = [10, 20, 30] := by
  have hp : parse_serial_data pyFloat initState c7line =
      some (applyAngles initState c7angles) := by decide
  rcases parse_serial_data_partitions_fingers pyFloat initState _ c7line hp with
    ⟨angles, hang, -, -, -, -, -, hid⟩
  have hang2 : parseFields pyFloat (pySplit ',' (pyStrip c7line)) =
      some c7angles := by decide
  have heq : angles = c7angles := Option.some.inj (hang.symm.trans hang2)
  refine ⟨applyAngles initState c7angles, hp, ?_⟩
  rw [hid rfl, heq]
  decide

/-- C3: in any reachable state whose channel `i` has both bounds stored
(non-sentinel) and distinct, `map_angle` is the clamped linear rescale
`clamp(((v - min) / (max - min)) * 90, 0, 90)`.  (Reachability supplies the
`is_calibrated` flag: the only writer of a non-sentinel maximum also raises
the flag.) -/
theorem map_angle_linear_rescale (st : GloveState) (h : GloveReachable st)
    (i : ℕ) (mn mx v : ℚ)
    (hmn : st.calibration_min.getD i none = some mn)
    (hmx : st.calibration_max.getD i none = some mx)
    (hne : mn ≠ mx) :
    map_angle st v i = max 0 (min 90 ((v - mn) / (mx - mn) * 90)) := by
  have hc := calibrated_of_max_some st h i mx hmx
  exact map_angle_eq_clamp st v i mn mx hc hmn hmx (fun he => hne he.symm)

/-- Witness for C3: after snapshotting min `[0]*14` and max `[100]*14`,
`map(50, 0) = 45` exactly and `map(150, 0) = 90` (saturated). -/
theorem map_angle_linear_rescale_witness :
    map_angle stDemo 50 0 = 45 ∧ map_angle stDemo 150 0 = 90 := by
  have h1 := map_angle_linear_rescale stDemo stDemo_reachable 0 0 100 50
    (by decide) (by decide) (by norm_num)
  have h2 := map_angle_linear_rescale stDemo stDemo_reachable 0 0 100 150
    (by decide) (by decide) (by norm_num)
  rw [h1, h2]
  constructor <;> norm_num [min_def, max_def]

/-- Counterexample to C4 as stated: calibration can be activated with the
minimum snapshot above the maximum snapshot (take the "minimum" pose at raw
100 and the "maximum" pose at raw 0).  In that reachable state the bounds
are set and distinct, yet monotone non-decrease fails on a concrete pair:
`map(0) = 90 > 0 = map(100)` although `0 ≤ 100`. -/
theorem map_angle_not_monotone :
    (0 : ℚ) ≤ 100 ∧ map_angle stRev 100 0 < map_angle stRev 0 0 := by
  have hcx := map_angle_eq_clamp stRev 100 0 100 0 (by decide) (by decide)
    (by decide) (by norm_num)
  have hcy := map_angle_eq_clamp stRev 0 0 100 0 (by decide) (by decide)
    (by decide) (by norm_num)
  refine ⟨by norm_num, ?_⟩
  rw [hcx, hcy]
  norm_num [min_def, max_def]

/-- C4 (amended): in any reachable state whose channel `i` has both bounds
stored and distinct, `map_angle` always lands in `[0, 90]` (saturating
outside the calibrated envelope), and it is monotonically non-decreasing in
`v` provided `min < max` — the restriction to `min < max` being exactly what
the counterexample forces. -/
theorem map_angle_monotone_bounded (st : GloveState) (h : GloveReachable st)
    (i : ℕ) (mn mx : ℚ)
    (hmn : st.calibration_min.getD i none = some mn)
    (hmx : st.calibration_max.getD i none = some mx) :
    (mn < mx → ∀ v1 v2 : ℚ, v1 ≤ v2 → map_angle st v1 i ≤ map_angle st v2 i) ∧
    (mn ≠ mx → ∀ v : ℚ, 0 ≤ map_angle st v i ∧ map_angle st v i ≤ 90) := by
  have hc := calibrated_of_max_some st h i mx hmx
  constructor
  · intro hlt v1 v2 hv
    have hne : ¬ mx = mn := (ne_of_lt hlt).symm
    rw [map_angle_eq_clamp st v1 i mn mx hc hmn hmx hne,
        map_angle_eq_clamp st v2 i mn mx hc hmn hmx hne]
    have hpos : (0 : ℚ) < mx - mn := sub_pos.mpr hlt
    have hmono : (v1 - mn) / (mx - mn) * 90 ≤ (v2 - mn) / (mx - mn) * 90 := by
      have h1 : v1 - mn ≤ v2 - mn := sub_le_sub_right hv mn
      have h2 : (v1 - mn) / (mx - mn) ≤ (v2 - mn) / (mx - mn) :=
        (div_le_div_right hpos).mpr h1
      exact mul_le_mul_of_nonneg_right h2 (by norm_num)
    exact max_le_max le_rfl (min_le_min le_rfl hmono)
  · intro hne v
    have hne' : ¬ mx = mn := fun he => hne he.symm
    rw [map_angle_eq_clamp st v i mn mx hc hmn hmx hne']
    exact ⟨le_max_left 0 _, max_le (by norm_num) (min_le_left _ _)⟩

/-- Witness for the amended C4 at the 0/100 calibration: monotone on
`10 ≤ 20` and bounded at the out-of-range input `500`. -/
theorem map_angle_monotone_bounded_witness :
    map_angle stDemo 10 0 ≤ map_angle stDemo 20 0 ∧
    0 ≤ map_angle stDemo 500 0 ∧ map_angle stDemo 500 0 ≤ 90 := by
  have h := map_angle_monotone_bounded stDemo stDemo_reachable 0 0 100
    (by decide) (by decide)
  exact ⟨h.1 (by norm_num) 10 20 (by norm_num),
         (h.2 (by norm_num) 500).1, (h.2 (by norm_num) 500).2⟩

/-- C5: with calibration active and a channel whose stored bounds coincide,
`map_angle` returns exactly the midpoint `45` for every input, instead of
dividing by zero. -/
theorem map_angle_degenerate_midpoint (st : GloveState) (i : ℕ) (m v : ℚ)
    (hc : st.is_calibrated = true)
    (hmn : st.calibration_min.getD i none = some m)
    (hmx : st.calibration_max.getD i none = some m) :
    map_angle st v i = 45 := by
  unfold map_angle
  rw [hc, hmn, hmx]
  simp

/-- Witness for C5: both snapshots taken from the same all-5 frame, any
input maps to `45`. -/
theorem map_angle_degenerate_midpoint_witness :
    map_angle stDegenerate 123 0 = 45 :=
  map_angle_degenerate_midpoint stDegenerate 0 5 123 (by decide) (by decide)
    (by decide)

/-- Counterexample to C6 as stated: pressing "set maximum" alone (with the
angle serial open) raises `is_calibrated`, although no "set minimum" trigger
ever occurred since startup. -/
theorem calibration_active_without_min :
    (execTrace [GloveEv.openSerial, GloveEv.set_max_values]).is_calibrated = true ∧
    GloveEv.set_min_values ∉ [GloveEv.openSerial, GloveEv.set_max_values] := by
  decide

/-- C6 (amended): `is_calibrated` becomes true exactly when a "set maximum"
trigger fires while the angle serial is open — the "set minimum" trigger is
not required; `reset_calibration` restores both bounds to the unset
sentinels and marks calibration inactive. -/
theorem calibration_activation (st : GloveState) (e : GloveEv) :
    ((glove_step st e).is_calibrated = true →
      st.is_calibrated = true ∨
        (e = GloveEv.set_max_values ∧ st.angle_serial_open = true)) ∧
    ((glove_step st GloveEv.set_max_values).is_calibrated =
      (st.angle_serial_open || st.is_calibrated)) ∧
    (glove_step st GloveEv.reset_calibration).calibration_min = List.replicate 14 none ∧
    (glove_step st GloveEv.reset_calibration).calibration_max = List.replicate 14 none ∧
    (glove_step st GloveEv.reset_calibration).is_calibrated = false := by
  refine ⟨?_, ?_, rfl, rfl, rfl⟩
  · intro hflag
    cases e with
    | openSerial => exact Or.inl hflag
    | closeSerial => exact Or.inl hflag
    | set_min_values =>
      left
      by_cases ho : st.angle_serial_open
      · simpa [glove_step, ho] using hflag
      · simpa [glove_step, ho] using hflag
    | set_max_values =>
      by_cases ho : st.angle_serial_open
      · exact Or.inr ⟨rfl, ho⟩
      · left
        simpa [glove_step, ho] using hflag
    | reset_calibration => simp [glove_step] at hflag
    | angleLine s =>
      left
      rw [(angleLine_preserves_calibration st s).2.2.1] at hflag
      exact hflag
  · by_cases ho : st.angle_serial_open
    · simp [glove_step, ho]
    · simp [glove_step, ho]

/-- Witness for the amended C6: from the freshly opened state, "set
maximum" alone activates, and the activation theorem attributes it to the
open-serial "set maximum" path; a reset on the initial state leaves the
flag down. -/
theorem calibration_activation_witness :
    ((execTrace [GloveEv.openSerial]).is_calibrated = true ∨
      (GloveEv.set_max_values = GloveEv.set_max_values ∧
        (execTrace [GloveEv.openSerial]).angle_serial_open = true)) ∧
    (glove_step initState GloveEv.reset_calibration).is_calibrated = false := by
  have h := (calibration_activation (execTrace [GloveEv.openSerial])
    GloveEv.set_max_values).1 (by decide)
  exact ⟨h, (calibration_activation initState GloveEv.reset_calibration).2.2.2.2⟩

/-- C2 (code-bug evidence): the spec's chunked-pressure scenario produces
*no* frame.  Each `readline()` result is `strip()`ped — which removes the
terminating newline — before being appended to the buffer, so the buffer
after both chunks holds the whole record without its newline and the
`while '\x0a' in buffer` loop never fires (first two conjuncts).  The
extraction loop itself is correct: fed the same bytes with the newline
intact, it produces exactly the one frame `[10, 20, 30, 40, 50]` the spec
expects (third conjunct) — the slip is stripping the newline before
buffering. -/
theorem pressure_chunks_yield_no_frame :
    (pressureRun emptyBuffer c2chunks).1 = [] ∧
    (pressureRun emptyBuffer c2chunks).2 = c2joined ∧
    (extractLines c2joinedNL.length c2joinedNL).1 = [[10, 20, 30, 40, 50]] := by
  decide

/-- C8 (code-bug evidence): selecting 30 FPS stores
`int(1000 / 30) = 33` ms — already not the claimed exact `1000/30` ms — and
the refresh loop that `run()` actually starts (`update_visualization`)
schedules at a fixed 16 ms regardless of the stored interval, and only
while `thread_running` is true; only the never-started `update` loop would
honour the stored interval. -/
theorem refresh_rate_not_used_for_scheduling :
    update_frequency 30 17 = 33 ∧
    ((update_frequency 30 17 : ℚ) ≠ 1000 / 30) ∧
    update_frequency 60 17 = 16 ∧
    update_visualization_delay true (update_frequency 30 17) = some 16 ∧
    update_visualization_delay false (update_frequency 30 17) = none ∧
    update_loop_delay (update_frequency 30 17) = some 33 := by
  have h33 : update_frequency 30 17 = 33 := by decide
  refine ⟨h33, ?_, by decide, by decide, by decide, by decide⟩
  rw [h33]
  norm_num

/-- C9: the effective read thread (the second `serial_read_thread`
definition, which replaces the pressure-reading first one) emits nothing
but the `True` angle flag, never a 5-element pressure list; draining its
queue therefore leaves any pressure vector — in particular the initial
`[0, 0, 0, 0, 0]` — unchanged, and the thread itself never writes
`pressure_data`. -/
theorem pressure_data_never_updated (st : GloveState)
    (polls : List (Option String)) (p : List ℕ) :
    (∃ n, (serial_read_thread_run st polls).2 =
      List.replicate n QItem.angleFlag) ∧
    update_visualization_drain p (serial_read_thread_run st polls).2 = p ∧
    (serial_read_thread_run st polls).1.pressure_data = st.pressure_data := by
  obtain ⟨⟨n, hn⟩, hpd⟩ := run_items_pressure polls st
  refine ⟨⟨n, hn⟩, ?_, hpd⟩
  rw [hn]
  exact drain_replicate_angleFlag p n

/-- C10: `start_serial_thread` is not among the class's methods, so the
connect branch of `toggle_connection` always ends in its exception handler:
in every reachable connection state the thread flag is down, no read thread
was ever started, both ports are closed and the button reads "连接"
(disconnected). -/
theorem connect_branch_always_fails (st : AppState) (h : AppReachable st) :
    st.thread_running = false ∧ st.serial_thread_started = false ∧
    st.angle_open = false ∧ st.pressure_open = false ∧
    st.connect_btn_text = "连接" ∧
    classMethodNames.contains startMethodName = false := by
  have hmethod : classMethodNames.contains startMethodName = false := by
    decide
  induction h with
  | init => exact ⟨rfl, rfl, rfl, rfl, rfl, hmethod⟩
  | step st e hst ih =>
    obtain ⟨h1, h2, h3, h4, h5, -⟩ := ih
    cases e with
    | stopThread => exact ⟨rfl, h2, h3, h4, h5, hmethod⟩
    | toggle a b c d =>
      cases a <;> cases b <;> cases c <;> cases d <;>
        simp_all [app_step, toggle_connection, connect_except_handler]

/-- Witness for C10: attempting to connect both ports (selections made,
both opens succeeding) from the initial state still ends disconnected with
no thread started. -/
theorem connect_branch_always_fails_witness :
    (app_step initAppState (AppEv.toggle true true true true)).thread_running = false ∧
    (app_step initAppState (AppEv.toggle true true true true)).serial_thread_started = false ∧
    (app_step initAppState (AppEv.toggle true true true true)).connect_btn_text = "连接" := by
  have h := connect_branch_always_fails
    (app_step initAppState (AppEv.toggle true true true true))
    (AppReachable.step initAppState (AppEv.toggle true true true true)
      AppReachable.init)
  exact ⟨h.1, h.2.1, h.2.2.2.2.1⟩
